import Mathlib

/-!
Shallow embedding of the FinalRAG repository core:
  src/vectorstore.py  (class VectorStore)
  src/rag_chain.py    (class RAGChain)

External collaborators (FAISS, the embedding model, the cross-encoder
reranker, the LLM, the PubMed tool, the filesystem, hashlib) are opaque to
the repository code; they are modelled as oracle parameters or abstract
stand-ins, exactly at the call boundaries the Python code uses.  All
control flow, state mutation and string construction is translated
line-by-line from the source.
-/

/-- A langchain Document: page content plus metadata (opaque to the core;
modelled as a string label). -/
structure Doc where
  page_content : String
  metadata : String
deriving DecidableEq, Repr

/-- Modelled from the spec: hashlib.md5(content.encode("utf-8")).hexdigest()
is an external library call.  The spec requires only a deterministic content
digest whose hexdigest is a non-empty string (a real hexdigest is 32 hex
characters); collisions are an accepted risk, so an injective stand-in is
faithful.  Modelled as a tagged copy of the content. -/
def md5hexdigest (s : String) : String := "md5:" ++ s

/-- State of a VectorStore instance (src/vectorstore.py, class VectorStore).
The FAISS index is modelled by its docstore: the list of physically stored
documents (FAISS.from_documents stores the batch; add_documents appends).
os.path.exists(self.persist_directory) is modelled by the boolean field
persist_dir_exists. Fields that no claim touches (knowledge_graph,
embeddings, semaphore, model names) are omitted. compression_retriever
records whether the ContextualCompressionRetriever was constructed. -/
structure VectorStore where
  batch_size : Nat := 200
  persist_directory : String := "faiss_index"
  max_concurrent : Nat := 10
  use_reranker : Bool := true
  reranker_top_n : Nat := 4
  vector_index : Option (List Doc) := none
  added_doc_hashes : Finset String := ∅
  compression_retriever : Bool := false
  persist_dir_exists : Bool := false
deriving DecidableEq

/-- def _get_document_hash (vectorstore.py:72): returns the md5 hexdigest if
doc.page_content is truthy (non-empty), else the empty string. -/
def _get_document_hash (d : Doc) : String :=
  if d.page_content ≠ "" then md5hexdigest d.page_content else ""

/-- def _update_doc_hashes (vectorstore.py:75): adds each document's hash to
the added_doc_hashes set. -/
def _update_doc_hashes (hs : Finset String) (batch : List Doc) : Finset String :=
  batch.foldl (fun acc d => insert (_get_document_hash d) acc) hs

/-- def _is_new_document (vectorstore.py:84): the walrus expression
(doc_hash := hash(doc)) and doc_hash not in added_doc_hashes, read as a
boolean: the hash is truthy (non-empty) and not already registered. -/
def _is_new_document (s : VectorStore) (d : Doc) : Bool :=
  let h := _get_document_hash d
  h != "" && ! decide (h ∈ s.added_doc_hashes)

/-- Python str.strip() with no argument: remove leading and trailing
whitespace.  Defined over the character list (rather than via String.trim,
which does not reduce definitionally) so concrete instances evaluate. -/
def pyStrip (s : String) : String :=
  ⟨((s.data.dropWhile Char.isWhitespace).reverse.dropWhile Char.isWhitespace).reverse⟩

/-- def _filter_valid_docs (vectorstore.py:88): keeps documents whose
page_content is truthy and whose stripped content is truthy. -/
def _filter_valid_docs (documents : List Doc) : List Doc :=
  documents.filter (fun d => d.page_content != "" && pyStrip d.page_content != "")

/-- def _save_local_index (vectorstore.py:113): no-op when no index; on
success the persist directory exists; a save failure is caught internally
and changes nothing (the in-memory state already mutated stays). -/
def _save_local_index (s : VectorStore) (saveFails : Bool) : VectorStore :=
  if s.vector_index = none then s
  else if saveFails then s
  else { s with persist_dir_exists := true }

/-- async def delete_index (vectorstore.py:125): early return when the
persist directory does not exist; otherwise shutil.rmtree (failure caught
and logged), then in either rmtree outcome the in-memory index is set to
None and the hash set cleared. -/
def delete_index (s : VectorStore) (rmFails : Bool) : VectorStore :=
  if s.persist_dir_exists = false then s
  else if rmFails then
    { s with vector_index := none, added_doc_hashes := ∅ }
  else
    { s with persist_dir_exists := false, vector_index := none, added_doc_hashes := ∅ }

/-- Fuel-driven chunking; fuel is instantiated with the list length, which
bounds the number of chunks whenever the chunk size is positive. -/
def chunksAux (bs : Nat) : Nat → List Doc → List (List Doc)
  | _, [] => []
  | 0, l => [l]
  | fuel + 1, l => l.take bs :: chunksAux bs fuel (l.drop bs)

/-- def _create_batches (vectorstore.py:140): contiguous slices
documents[i : i + batch_size] for i = 0, bs, 2bs, ...  (batch_size = 0
would raise ValueError in Python's range; the model is unspecified there,
and the repository default is 200). -/
def _create_batches (bs : Nat) (documents : List Doc) : List (List Doc) :=
  chunksAux bs documents.length documents

/-- async def _add_batch_and_persist (vectorstore.py:143): empty batch
returns 0; otherwise, under the semaphore, the FAISS mutation either
creates the index from the batch or appends the batch (mutationFails
models that external call raising, in which case the except arm logs and
returns 0 with no state committed); on success the index is saved (save
failures are swallowed inside _save_local_index) and the batch hashes are
registered; returns the batch length. -/
def _add_batch_and_persist (s : VectorStore) (mutationFails saveFails : Bool)
    (batch : List Doc) : VectorStore × Nat :=
  if batch.isEmpty then (s, 0)
  else if mutationFails then (s, 0)
  else
    let s1 := { s with vector_index := some ((s.vector_index.getD []) ++ batch) }
    let s2 := _save_local_index s1 saveFails
    let s3 := { s2 with added_doc_hashes := _update_doc_hashes s2.added_doc_hashes batch }
    (s3, batch.length)

/-- async def _create_vector_index (vectorstore.py:163): early return on
empty input; filter valid; early return when none valid; filter new
against the CURRENT hash set (the set is not updated while filtering, as
in the Python list comprehension); early return when none new; otherwise
batch and run _add_batch_and_persist over every batch.  asyncio.gather
under the cooperative single-threaded scheduler is modelled as an in-order
fold; mutFail i tells whether batch i's index mutation raises. -/
def _create_vector_index (s : VectorStore) (mutFail : Nat → Bool) (saveFails : Bool)
    (documents : List Doc) : VectorStore :=
  if documents.isEmpty then s
  else
    let valid_documents := _filter_valid_docs documents
    if valid_documents.isEmpty then s
    else
      let new_documents := valid_documents.filter (_is_new_document s)
      if new_documents.isEmpty then s
      else
        let batches := _create_batches s.batch_size new_documents
        (batches.enum.foldl
          (fun st ib => (_add_batch_and_persist st (mutFail ib.1) saveFails ib.2).1) s)

/-- async def perform_reranked_search (vectorstore.py:65): only acts when
use_reranker is set and the compression retriever was constructed; the
reranker itself is the external oracle rerank (its failure propagates to
the caller as an exception); otherwise returns the empty list. -/
def perform_reranked_search (s : VectorStore)
    (rerank : String → Nat → Except String (List Doc))
    (query : String) (k : Nat) : Except String (List Doc) :=
  if s.use_reranker && s.compression_retriever then rerank query k
  else Except.ok []

/-- async def similarity_search (vectorstore.py:184): empty when no index;
otherwise dispatches on use_reranker to the reranked search or to the raw
FAISS top-k (the external oracle faiss); any exception from either is
caught and degrades to the empty list. -/
def similarity_search (s : VectorStore)
    (rerank faiss : String → Nat → Except String (List Doc))
    (query : String) (k : Nat) : List Doc :=
  match s.vector_index with
  | none => []
  | some _ =>
    match (if s.use_reranker then perform_reranked_search s rerank query k
           else faiss query k) with
    | Except.ok docs => docs
    | Except.error _ => []

/-- async def batch_query (vectorstore.py:207): with no index, one empty
list per query; otherwise gathers an independent similarity_search per
query, preserving input order. -/
def batch_query (s : VectorStore)
    (rerank faiss : String → Nat → Except String (List Doc))
    (queries : List String) (k : Nat) : List (List Doc) :=
  match s.vector_index with
  | none => queries.map (fun _ => [])
  | some _ => queries.map (fun q => similarity_search s rerank faiss q k)

/-- Number of stored copies of a given content in the vector index. -/
def contentCount (s : VectorStore) (c : String) : Nat :=
  ((s.vector_index.getD []).filter (fun d => d.page_content == c)).length

/-- Number of documents physically stored in the vector index. -/
def docCount (s : VectorStore) : Nat := (s.vector_index.getD []).length

/-! ## RAGChain (src/rag_chain.py) -/

/-- Python's substring test (needle in haystack) on lists of characters:
true when the needle is a prefix of some suffix of the haystack. -/
def substrAux (needle : List Char) : List Char → Bool
  | [] => needle.isEmpty
  | c :: rest => needle.isPrefixOf (c :: rest) || substrAux needle rest

/-- Python's substring containment operator: needle in hay. -/
def strContains (hay needle : String) : Bool := substrAux needle.data hay.data

/-- A conversation turn: the dict with keys question and answer
(rag_chain.py:69). -/
abbrev Turn := String × String

/-- State of a RAGChain instance (rag_chain.py:18): the conversation memory
list and the max_memory bound.  retriever, llm, client and the PubMed tool
are external collaborators passed as oracles to invoke. -/
structure RAGChain where
  memory : List Turn := []
  max_memory : Nat := 10
deriving DecidableEq

/-- Python memory[-max_memory:]: the last max_memory turns, except that a
bound of 0 slices the whole list (memory[-0:] is memory[0:]). -/
def lastSlice (m : Nat) (l : List Turn) : List Turn :=
  if m = 0 then l else l.drop (l.length - m)

/-- def _format_history (rag_chain.py:56): the sentinel when empty, else
alternating Human/Assistant lines for the last max_memory turns. -/
def _format_history (c : RAGChain) : String :=
  if c.memory.isEmpty then "No previous conversation."
  else
    String.intercalate "\n"
      ((lastSlice c.max_memory c.memory).foldr
        (fun t acc => ("Human: " ++ t.1) :: ("Assistant: " ++ t.2) :: acc) [])

/-- def _add_to_memory (rag_chain.py:67): append the turn, then pop the
front element when the length exceeds max_memory. -/
def _add_to_memory (c : RAGChain) (question answer : String) : RAGChain :=
  let mem := c.memory ++ [(question, answer)]
  if c.max_memory < mem.length then { c with memory := mem.tail }
  else { c with memory := mem }

/-- The first-pass prompt (rag_chain.py:31, self.prompt formatted at
rag_chain.py:83): fixed instruction text with the context, history and
question substituted.  Leading indentation of the Python triple-quoted
literal is immaterial to every claim and is normalised. -/
def promptTemplate (context history question : String) : String :=
  "**Your Goal:** Provide a concise, accurate, and helpful answer to the user's question.\n" ++
  "**Instructions:**\n" ++
  "1. **Prioritize Context:** First, attempt to answer using the **Context** provided below.\n" ++
  "2. **Refer to History:** Consider the **Previous conversation** for continuity.\n" ++
  "3. **Tool Usage:** If you cannot find a relevant answer in the Context or conversation history, simply respond with \"TOOL_USE: Need PubMed search\" and I will search PubMed for you.\n" ++
  "4. **Direct Answer:** Otherwise, provide a direct answer based on the available information.\n" ++
  "---\n**Context:**\n" ++ context ++
  "\n---\n**Previous conversation:**\n" ++ history ++
  "\n---\n**Current question:**\n" ++ question ++
  "\n**Answer:**\nSummary::\n"

/-- The re-prompt after a PubMed search (rag_chain.py:102): embeds the tool
results, the original context, the history and the question. -/
def repromptTemplate (pubmed_results context history question : String) : String :=
  "You previously tried to answer a question but needed to use the PubMed tool. Here are the results from your PubMed search:\n" ++
  "**PubMed Search Results:**\n" ++ pubmed_results ++
  "\n**Original Context:**\n" ++ context ++
  "\n**Previous conversation:**\n" ++ history ++
  "\n**Original question:**\n" ++ question ++
  "\nBased on these PubMed search results, the original context, and the previous conversation, provide a concise and accurate answer. If the PubMed results also do not contain the answer, state that you cannot find the answer.\n" ++
  "**Answer:**\nSummary::\n"

/-- The answer constructed when the PubMed fallback raises
(rag_chain.py:133). -/
def pubmedErrorAnswer (e initial_answer : String) : String :=
  "An error occurred while trying to use the PubMed tool: " ++ e ++
  "\nOriginal attempt: " ++ initial_answer

/-- async def invoke (rag_chain.py:74).  External collaborators are
oracles returning Except: hybrid is retriever.hybrid_retrieval(question)
(rag_chain.py:80, NOT inside any try block, so its exception propagates);
llm1 is the initial llm.invoke on the formatted prompt (rag_chain.py:90,
also outside any try block); pubmed is self.pubmed_tool.invoke applied to
the original question, and llm2 the second llm.invoke on the re-prompt —
those two run inside the try whose except arm builds pubmedErrorAnswer.
The fallback triggers on the literal substring TOOL_USE: in the initial
answer.  Returns the answer together with the post-_add_to_memory state;
Except.error models an exception propagating to the caller. -/
def invoke (c : RAGChain) (question : String)
    (hybrid : Except String String)
    (llm1 : String → Except String String)
    (pubmed : String → Except String String)
    (llm2 : String → Except String String) : Except String (String × RAGChain) :=
  match hybrid with
  | Except.error e => Except.error e
  | Except.ok context =>
    match llm1 (promptTemplate context (_format_history c) question) with
    | Except.error e => Except.error e
    | Except.ok initial_answer =>
      let answer :=
        if strContains initial_answer "TOOL_USE:" then
          match pubmed question with
          | Except.error e => pubmedErrorAnswer e initial_answer
          | Except.ok pubmed_results =>
            match llm2 (repromptTemplate pubmed_results context (_format_history c) question) with
            | Except.error e => pubmedErrorAnswer e initial_answer
            | Except.ok a => a
        else initial_answer
      Except.ok (answer, _add_to_memory c question answer)

/-! ## Claim theorems: vectorstore -/

/-- C1: the claim says a single ingestion of a list holding two distinct
documents with identical (fresh) content stores exactly one copy and one
fingerprint, and that re-running adds nothing.  The code disagrees on the
first part: the newness filter consults the hash set before any batch has
registered a hash, so both duplicates pass it and both are stored; the
fingerprint set does end up with one entry, and the re-run adds zero
documents.  Evaluated at the concrete failing input. -/
theorem c1_intra_call_duplicates_stored_twice :
    (_get_document_hash ⟨"a", "m1"⟩ ∉ ({} : VectorStore).added_doc_hashes) ∧
    (⟨"a", "m1"⟩ : Doc) ≠ (⟨"a", "m2"⟩ : Doc) ∧
    contentCount
      (_create_vector_index {} (fun _ => false) false [⟨"a", "m1"⟩, ⟨"a", "m2"⟩]) "a" = 2 ∧
    (_create_vector_index {} (fun _ => false) false
      [⟨"a", "m1"⟩, ⟨"a", "m2"⟩]).added_doc_hashes.card = 1 ∧
    _create_vector_index
      (_create_vector_index {} (fun _ => false) false [⟨"a", "m1"⟩, ⟨"a", "m2"⟩])
      (fun _ => false) false [⟨"a", "m1"⟩, ⟨"a", "m2"⟩] =
      _create_vector_index {} (fun _ => false) false [⟨"a", "m1"⟩, ⟨"a", "m2"⟩] := by
  decide

/-- C2: when the index mutation of a non-empty batch fails, the call
returns 0 rather than raising, the whole state is left unchanged (so the
document count is unchanged), and no fingerprint of a batch document that
was absent before is present afterwards. -/
theorem c2_failed_batch_atomicity (s : VectorStore) (saveFails : Bool)
    (batch : List Doc) (hne : batch ≠ [])
    (hnew : ∀ d ∈ batch, _get_document_hash d ∉ s.added_doc_hashes) :
    (_add_batch_and_persist s true saveFails batch).2 = 0 ∧
    (_add_batch_and_persist s true saveFails batch).1 = s ∧
    docCount (_add_batch_and_persist s true saveFails batch).1 = docCount s ∧
    ∀ d ∈ batch,
      _get_document_hash d ∉
        (_add_batch_and_persist s true saveFails batch).1.added_doc_hashes := by
  have h : _add_batch_and_persist s true saveFails batch = (s, 0) := by
    unfold _add_batch_and_persist
    cases batch.isEmpty <;> simp
  rw [h]
  exact ⟨rfl, rfl, rfl, hnew⟩

/-- C2 witness: the atomicity conclusion at a concrete one-document batch
over the fresh store. -/
theorem c2_failed_batch_atomicity_witness :
    (_add_batch_and_persist {} true false [⟨"a", "m"⟩]).2 = 0 ∧
    (_add_batch_and_persist {} true false [⟨"a", "m"⟩]).1 = {} ∧
    docCount (_add_batch_and_persist {} true false [⟨"a", "m"⟩]).1 =
      docCount {} ∧
    ∀ d ∈ [(⟨"a", "m"⟩ : Doc)],
      _get_document_hash d ∉
        (_add_batch_and_persist {} true false [⟨"a", "m"⟩]).1.added_doc_hashes :=
  c2_failed_batch_atomicity {} false [⟨"a", "m"⟩] (by decide) (by decide)

/-- C7 counterexample: a store whose index exists, whose use_reranker flag
is still set, but whose compression retriever was never constructed (the
reachable state after documents are first ingested into a store created
with no index on disk): similarity_search returns the empty list even
though the direct FAISS search would return a document. -/
theorem c7_unavailable_reranker_returns_empty :
    similarity_search
      { vector_index := some [⟨"a", "m"⟩], use_reranker := true,
        compression_retriever := false }
      (fun _ _ => Except.ok []) (fun _ _ => Except.ok [⟨"a", "m"⟩]) "q" 4 = [] ∧
    ((fun _ _ => Except.ok [⟨"a", "m"⟩] :
        String → Nat → Except String (List Doc)) "q" 4 =
      Except.ok [(⟨"a", "m"⟩ : Doc)]) ∧
    [(⟨"a", "m"⟩ : Doc)] ≠ [] := by
  exact ⟨rfl, rfl, by decide⟩

/-- C7 (amended): with an index present, similarity_search returns the raw
FAISS top-k only when use_reranker is off (and that call succeeds); when
use_reranker is on but the compression retriever was never constructed it
returns the empty list, not the direct results. -/
theorem c7_search_dispatch (s : VectorStore)
    (rerank faiss : String → Nat → Except String (List Doc))
    (query : String) (k : Nat) (idx : List Doc)
    (hidx : s.vector_index = some idx) :
    (s.use_reranker = false → ∀ docs, faiss query k = Except.ok docs →
      similarity_search s rerank faiss query k = docs) ∧
    (s.use_reranker = true → s.compression_retriever = false →
      similarity_search s rerank faiss query k = []) := by
  constructor
  · intro hr docs hf
    simp [similarity_search, hidx, hr, hf]
  · intro hr hc
    simp [similarity_search, hidx, hr, perform_reranked_search, hc]

/-- C7 witness: the reranker-off arm evaluated at a concrete store. -/
theorem c7_search_dispatch_witness :
    similarity_search
      { vector_index := some [⟨"a", "m"⟩], use_reranker := false }
      (fun _ _ => Except.ok []) (fun _ _ => Except.ok [⟨"b", "m"⟩]) "q" 4 =
      [⟨"b", "m"⟩] :=
  (c7_search_dispatch
    { vector_index := some [⟨"a", "m"⟩], use_reranker := false }
    (fun _ _ => Except.ok []) (fun _ _ => Except.ok [⟨"b", "m"⟩]) "q" 4
    [⟨"a", "m"⟩] rfl).1 rfl [⟨"b", "m"⟩] rfl

/-- C8 counterexample: a document whose content is the single blank is
whitespace-only, yet _get_document_hash returns a real (non-empty) digest,
because the code only tests truthiness of the raw content, not of the
stripped content. -/
theorem c8_whitespace_content_has_fingerprint :
    pyStrip " " = "" ∧ _get_document_hash ⟨" ", "m"⟩ ≠ "" := by
  decide

/-- C8 (amended): the fingerprint is the invalid empty string exactly when
the content is empty; whitespace-only non-empty content receives a normal
fingerprint, and such documents are instead kept out of the index upstream
by the validity filter, which any surviving document passes. -/
theorem c8_fingerprint_empty_iff_empty_content (d : Doc) :
    (_get_document_hash d = "" ↔ d.page_content = "") ∧
    (∀ documents : List Doc, d ∈ _filter_valid_docs documents →
      d.page_content ≠ "" ∧ pyStrip d.page_content ≠ "") := by
  constructor
  · constructor
    · intro h
      by_contra hne
      rw [_get_document_hash, if_pos hne] at h
      have := congrArg String.data h
      simp [md5hexdigest] at this
    · intro h
      simp [_get_document_hash, h]
  · intro documents hmem
    have := List.mem_filter.mp hmem
    simpa using this.2

/-- C8 witness: the amended filter conclusion at a concrete document that
survives the validity filter. -/
theorem c8_fingerprint_empty_iff_empty_content_witness :
    (Doc.page_content ⟨"a", "m"⟩ ≠ "") ∧ pyStrip (Doc.page_content ⟨"a", "m"⟩) ≠ "" :=
  (c8_fingerprint_empty_iff_empty_content ⟨"a", "m"⟩).2 [⟨"a", "m"⟩] (by decide)

/-- C9 counterexample: when the persist directory does not exist,
delete_index returns before the reset lines, leaving the in-memory index
and the fingerprint set intact; and when the rmtree call fails, the
persisted location still exists afterwards. -/
theorem c9_missing_directory_skips_reset :
    (delete_index
      { vector_index := some [⟨"a", "m"⟩], added_doc_hashes := {"h"},
        persist_dir_exists := false } false).vector_index = some [⟨"a", "m"⟩] ∧
    (delete_index
      { vector_index := some [⟨"a", "m"⟩], added_doc_hashes := {"h"},
        persist_dir_exists := false } false).added_doc_hashes ≠ ∅ ∧
    (delete_index { persist_dir_exists := true } true).persist_dir_exists = true := by
  decide

/-- C9 (amended): when the persist directory existed beforehand, after
delete_index the in-memory index is none and the fingerprint set is empty
whatever the rmtree outcome, so a subsequent search returns the empty
list; the persisted location is gone provided the removal succeeded.
When the directory did not exist, the call leaves the state unchanged. -/
theorem c9_delete_resets_when_directory_exists (s : VectorStore) (rmFails : Bool)
    (hdir : s.persist_dir_exists = true) :
    (delete_index s rmFails).vector_index = none ∧
    (delete_index s rmFails).added_doc_hashes = ∅ ∧
    (∀ rerank faiss query k,
      similarity_search (delete_index s rmFails) rerank faiss query k = []) ∧
    (rmFails = false → (delete_index s rmFails).persist_dir_exists = false) := by
  unfold delete_index
  rw [hdir]
  cases rmFails <;> simp [similarity_search]

/-- C9 witness: the reset conclusions at a concrete store whose directory
exists and whose removal succeeds. -/
theorem c9_delete_resets_when_directory_exists_witness :
    (delete_index
      { vector_index := some [⟨"a", "m"⟩], added_doc_hashes := {"h"},
        persist_dir_exists := true } false).vector_index = none ∧
    (delete_index
      { vector_index := some [⟨"a", "m"⟩], added_doc_hashes := {"h"},
        persist_dir_exists := true } false).persist_dir_exists = false := by
  have h := c9_delete_resets_when_directory_exists
    { vector_index := some [⟨"a", "m"⟩], added_doc_hashes := {"h"},
      persist_dir_exists := true } false rfl
  exact ⟨h.1, h.2.2.2 rfl⟩

/-- C10: batch_query is an order-preserving per-query map: its result has
exactly one entry per query, entry i being the similarity search for query
i; with no index it is the list of len(queries) empty lists. -/
theorem c10_batch_query_shape (s : VectorStore)
    (rerank faiss : String → Nat → Except String (List Doc))
    (queries : List String) (k : Nat) :
    batch_query s rerank faiss queries k =
      queries.map (fun q => similarity_search s rerank faiss q k) ∧
    (batch_query s rerank faiss queries k).length = queries.length ∧
    (s.vector_index = none →
      batch_query s rerank faiss queries k =
        queries.map (fun _ => ([] : List Doc))) := by
  have hmain : batch_query s rerank faiss queries k =
      queries.map (fun q => similarity_search s rerank faiss q k) := by
    cases h : s.vector_index with
    | none => simp [batch_query, similarity_search, h]
    | some idx => simp [batch_query, h]
  refine ⟨hmain, by rw [hmain]; exact queries.length_map _, ?_⟩
  intro hnone
  simp [batch_query, hnone]

/-- C10 witness: two queries against an index-less store give exactly two
empty result lists. -/
theorem c10_batch_query_shape_witness :
    batch_query {} (fun _ _ => Except.ok []) (fun _ _ => Except.ok [⟨"a", "m"⟩])
      ["q1", "q2"] 4 = [[], []] :=
  (c10_batch_query_shape {} (fun _ _ => Except.ok [])
    (fun _ _ => Except.ok [⟨"a", "m"⟩]) ["q1", "q2"] 4).2.2 rfl

/-! ## Claim theorems: conversation memory -/

/-- Folding a sequence of append calls over the memory, in order. -/
def appendTurns (c : RAGChain) (ts : List Turn) : RAGChain :=
  ts.foldl (fun acc t => _add_to_memory acc t.1 t.2) c

/-- The same fold at the level of the memory list, with the bound fixed. -/
def memFold (m : Nat) (mem ts : List Turn) : List Turn :=
  ts.foldl
    (fun acc t =>
      if m < (acc ++ [t]).length then (acc ++ [t]).tail else acc ++ [t]) mem

theorem add_to_memory_memory (c : RAGChain) (q a : String) :
    (_add_to_memory c q a).memory =
      (if c.max_memory < (c.memory ++ [(q, a)]).length
       then (c.memory ++ [(q, a)]).tail else c.memory ++ [(q, a)]) ∧
    (_add_to_memory c q a).max_memory = c.max_memory := by
  unfold _add_to_memory
  dsimp only
  constructor <;> split <;> rfl

theorem appendTurns_eq_memFold (ts : List Turn) : ∀ c : RAGChain,
    (appendTurns c ts).memory = memFold c.max_memory c.memory ts ∧
    (appendTurns c ts).max_memory = c.max_memory := by
  induction ts with
  | nil => exact fun c => ⟨rfl, rfl⟩
  | cons t rest ih =>
    intro c
    have hstep := add_to_memory_memory c t.1 t.2
    have hih := ih (_add_to_memory c t.1 t.2)
    refine ⟨?_, ?_⟩
    · show (appendTurns (_add_to_memory c t.1 t.2) rest).memory = _
      rw [hih.1, hstep.1, hstep.2]
      rfl
    · show (appendTurns (_add_to_memory c t.1 t.2) rest).max_memory = _
      rw [hih.2, hstep.2]

theorem tail_append_drop (l : List Turn) (x : Turn) (rest : List Turn) :
    ((l ++ [x]).tail ++ rest).drop rest.length =
      (l ++ x :: rest).drop (rest.length + 1) := by
  cases l with
  | nil => simp [List.drop_length]
  | cons y l2 => simp [List.drop_succ_cons, List.append_assoc]

/-- The memory after a run of appends is the concatenation of the starting
memory and the appended turns, with everything before the last m entries
dropped (provided the starting memory respects the bound). -/
theorem memFold_drop (m : Nat) (ts : List Turn) : ∀ mem : List Turn,
    mem.length ≤ m →
    memFold m mem ts = (mem ++ ts).drop (mem.length + ts.length - m) := by
  induction ts with
  | nil =>
    intro mem h
    simp [memFold, Nat.sub_eq_zero_of_le h]
  | cons t rest ih =>
    intro mem h
    have hlen1 : (mem ++ [t]).length = mem.length + 1 := by simp
    by_cases hcase : m < mem.length + 1
    · have hlen : mem.length = m := Nat.le_antisymm h (Nat.lt_succ_iff.mp hcase)
      have hstep : memFold m mem (t :: rest) = memFold m ((mem ++ [t]).tail) rest := by
        simp only [memFold, List.foldl_cons]
        rw [if_pos (by omega)]
      rw [hstep, ih ((mem ++ [t]).tail) (by simp [hlen])]
      have e1 : (mem ++ [t]).tail.length + rest.length - m = rest.length := by
        simp only [List.length_tail, hlen1]
        omega
      have e2 : mem.length + (t :: rest).length - m = rest.length + 1 := by
        simp only [List.length_cons]
        omega
      rw [e1, e2]
      exact tail_append_drop mem t rest
    · have hstep : memFold m mem (t :: rest) = memFold m (mem ++ [t]) rest := by
        simp only [memFold, List.foldl_cons]
        rw [if_neg (by omega)]
      rw [hstep, ih (mem ++ [t]) (by simp; omega)]
      have e1 : (mem ++ [t]).length + rest.length - m =
          mem.length + (t :: rest).length - m := by
        simp only [hlen1, List.length_cons]
        omega
      rw [e1, List.append_assoc, List.singleton_append]

/-- C6: a memory respecting its bound still respects it after any run of
append calls, and eviction is first-in-first-out: appending max_memory + 5
turns to an empty memory leaves exactly the last max_memory of them, in
their original order (the first 5 are dropped). -/
theorem c6_memory_bound_and_fifo (c : RAGChain) (ts : List Turn) :
    (c.memory.length ≤ c.max_memory →
      (appendTurns c ts).memory.length ≤ c.max_memory) ∧
    (∀ m : Nat, ts.length = m + 5 →
      (appendTurns { memory := [], max_memory := m } ts).memory = ts.drop 5) := by
  constructor
  · intro h
    rw [(appendTurns_eq_memFold ts c).1, memFold_drop c.max_memory ts c.memory h]
    simp only [List.length_drop, List.length_append]
    omega
  · intro m hlen
    rw [(appendTurns_eq_memFold ts { memory := [], max_memory := m }).1]
    have h := memFold_drop m ts [] (by simp)
    simpa [hlen] using h

/-- C6 witness: bound 2, seven appended turns, the last two survive in
order. -/
theorem c6_memory_bound_and_fifo_witness :
    (appendTurns { memory := [], max_memory := 2 }
      [("q1", "a1"), ("q2", "a2"), ("q3", "a3"), ("q4", "a4"), ("q5", "a5"),
        ("q6", "a6"), ("q7", "a7")]).memory =
      [("q1", "a1"), ("q2", "a2"), ("q3", "a3"), ("q4", "a4"), ("q5", "a5"),
        ("q6", "a6"), ("q7", "a7")].drop 5 :=
  (c6_memory_bound_and_fifo { memory := [], max_memory := 2 }
    [("q1", "a1"), ("q2", "a2"), ("q3", "a3"), ("q4", "a4"), ("q5", "a5"),
      ("q6", "a6"), ("q7", "a7")]).2 2 rfl

/-! ## Claim theorems: the orchestrator -/

theorem substrAux_of_prefix (n h : List Char) (hp : n.isPrefixOf h = true) :
    substrAux n h = true := by
  cases h with
  | nil =>
    cases n with
    | nil => rfl
    | cons a t => simp [List.isPrefixOf] at hp
  | cons ch rest => simp [substrAux, hp]

theorem substrAux_cons (n : List Char) (ch : Char) (rest : List Char)
    (hs : substrAux n rest = true) : substrAux n (ch :: rest) = true := by
  simp [substrAux, hs]

/-- A needle occurring anywhere inside a character list is found. -/
theorem substrAux_append_self (n pre post : List Char) :
    substrAux n (pre ++ (n ++ post)) = true := by
  induction pre with
  | nil =>
    apply substrAux_of_prefix
    rw [ List.isPrefixOf_iff_prefix]
    exact List.prefix_append n post
  | cons ch pre ih => exact substrAux_cons n ch _ ih

/-- Python's substring operator finds the middle part of a concatenation. -/
theorem strContains_middle (a b c : String) :
    strContains (a ++ b ++ c) b = true := by
  unfold strContains
  have hd : (a ++ b ++ c).data = a.data ++ (b.data ++ c.data) := by
    simp [List.append_assoc]
  rw [hd]
  exact substrAux_append_self b.data a.data c.data

/-- C3 counterexample: when the context retriever raises, invoke raises to
its caller (the retrieval call sits outside every try block), so invoke
does not return an answer string for every collaborator behaviour. -/
theorem c3_retriever_error_propagates :
    ¬ ∃ r : String × RAGChain,
      invoke {} "q" (Except.error "retriever down") (fun _ => Except.ok "x")
        (fun _ => Except.ok "y") (fun _ => Except.ok "z") = Except.ok r := by
  rintro ⟨r, hr⟩
  exact Except.noConfusion hr

/-- C3 (amended): exceptions of the literature tool and of the second
generation call never escape invoke — once the context retrieval and the
first generation call succeed, invoke returns an answer string for every
behaviour of the tool and of the second generation call.  Exceptions of
the retriever and of the first generation call do propagate. -/
theorem c3_no_raise_after_first_generation (c : RAGChain) (question ctx ia : String)
    (llm1 pubmed llm2 : String → Except String String)
    (h1 : llm1 (promptTemplate ctx (_format_history c) question) = Except.ok ia) :
    ∃ r : String × RAGChain,
      invoke c question (Except.ok ctx) llm1 pubmed llm2 = Except.ok r := by
  cases hres : invoke c question (Except.ok ctx) llm1 pubmed llm2 with
  | ok r => exact ⟨r, rfl⟩
  | error e2 =>
    rw [invoke, h1] at hres
    exact Except.noConfusion hres

/-- C3 witness: a concrete run where the tool and the second generation
both raise, yet invoke returns an answer. -/
theorem c3_no_raise_after_first_generation_witness :
    ∃ r : String × RAGChain,
      invoke {} "q" (Except.ok "ctx") (fun _ => Except.ok "TOOL_USE: help")
        (fun _ => Except.error "tool down") (fun _ => Except.error "llm down") =
        Except.ok r :=
  c3_no_raise_after_first_generation {} "q" "ctx" "TOOL_USE: help"
    (fun _ => Except.ok "TOOL_USE: help") (fun _ => Except.error "tool down")
    (fun _ => Except.error "llm down") rfl

/-- C4: when the first generation output carries the TOOL_USE: marker and
both the literature tool and the second generation call succeed, invoke
returns the second generation's text, and the turn appended to memory is
the question paired with that final text (visible as the last stored turn
whenever the bound is positive), never the marker text. -/
theorem c4_tool_fallback_final_answer (c : RAGChain)
    (question ctx ia res final : String)
    (llm1 pubmed llm2 : String → Except String String)
    (h1 : llm1 (promptTemplate ctx (_format_history c) question) = Except.ok ia)
    (hm : strContains ia "TOOL_USE:" = true)
    (hp : pubmed question = Except.ok res)
    (h2 : llm2 (repromptTemplate res ctx (_format_history c) question) =
      Except.ok final) :
    invoke c question (Except.ok ctx) llm1 pubmed llm2 =
      Except.ok (final, _add_to_memory c question final) ∧
    (0 < c.max_memory →
      (_add_to_memory c question final).memory.getLast? =
        some (question, final)) := by
  constructor
  · rw [invoke, h1]
    simp only [hm, if_true, hp, h2]
  · intro hpos
    rw [(add_to_memory_memory c question final).1]
    split
    · rename_i hlt
      cases hmem : c.memory with
      | nil =>
        rw [hmem] at hlt
        simp at hlt
        omega
      | cons y t => simp [hmem]
    · simp

/-- C4 witness: the fallback protocol on concrete stubs. -/
theorem c4_tool_fallback_final_answer_witness :
    invoke {} "q" (Except.ok "ctx") (fun _ => Except.ok "TOOL_USE: need")
      (fun _ => Except.ok "results") (fun _ => Except.ok "final answer") =
      Except.ok ("final answer", _add_to_memory {} "q" "final answer") ∧
    (_add_to_memory {} "q" "final answer").memory.getLast? =
      some ("q", "final answer") := by
  have h := c4_tool_fallback_final_answer {} "q" "ctx" "TOOL_USE: need"
    "results" "final answer" (fun _ => Except.ok "TOOL_USE: need")
    (fun _ => Except.ok "results") (fun _ => Except.ok "final answer")
    rfl (by decide) rfl rfl
  exact ⟨h.1, h.2 (by decide)⟩

/-- C5: when the first generation output carries the TOOL_USE: marker and
the literature tool raises, invoke does not raise: it returns the
constructed failure answer, a non-empty string containing both the
exception text and the original marker-carrying first-pass text. -/
theorem c5_tool_failure_degradation (c : RAGChain) (question ctx ia e : String)
    (llm1 pubmed llm2 : String → Except String String)
    (h1 : llm1 (promptTemplate ctx (_format_history c) question) = Except.ok ia)
    (hm : strContains ia "TOOL_USE:" = true)
    (hp : pubmed question = Except.error e) :
    invoke c question (Except.ok ctx) llm1 pubmed llm2 =
      Except.ok (pubmedErrorAnswer e ia,
        _add_to_memory c question (pubmedErrorAnswer e ia)) ∧
    pubmedErrorAnswer e ia ≠ "" ∧
    strContains (pubmedErrorAnswer e ia) e = true ∧
    strContains (pubmedErrorAnswer e ia) ia = true := by
  refine ⟨?_, ?_, ?_, ?_⟩
  · rw [invoke, h1]
    simp only [hm, if_true, hp]
  · intro hempty
    have hd := congrArg String.data hempty
    simp only [pubmedErrorAnswer, String.data_append] at hd
    have hnil := List.append_eq_nil.mp (List.append_eq_nil.mp
      (List.append_eq_nil.mp hd).1).1
    exact absurd hnil.1 (by decide)
  · have h := strContains_middle
      "An error occurred while trying to use the PubMed tool: " e
      ("\nOriginal attempt: " ++ ia)
    simpa [pubmedErrorAnswer, String.append_assoc] using h
  · have h := strContains_middle
      ("An error occurred while trying to use the PubMed tool: " ++ e ++
        "\nOriginal attempt: ") ia ""
    simpa [pubmedErrorAnswer, String.append_assoc] using h

/-- C5 witness: the degradation conclusions on concrete stubs with a
failing tool. -/
theorem c5_tool_failure_degradation_witness :
    invoke {} "q" (Except.ok "ctx") (fun _ => Except.ok "TOOL_USE: need")
      (fun _ => Except.error "boom") (fun _ => Except.ok "unused") =
      Except.ok (pubmedErrorAnswer "boom" "TOOL_USE: need",
        _add_to_memory {} "q" (pubmedErrorAnswer "boom" "TOOL_USE: need")) ∧
    pubmedErrorAnswer "boom" "TOOL_USE: need" ≠ "" ∧
    strContains (pubmedErrorAnswer "boom" "TOOL_USE: need") "boom" = true ∧
    strContains (pubmedErrorAnswer "boom" "TOOL_USE: need") "TOOL_USE: need" = true :=
  c5_tool_failure_degradation {} "q" "ctx" "TOOL_USE: need" "boom"
    (fun _ => Except.ok "TOOL_USE: need") (fun _ => Except.error "boom")
    (fun _ => Except.ok "unused") rfl (by decide) rfl
